import Mathlib

/-!
Shallow embedding of `src/common/op_params.py` (the `opParams` file-backed
parameter store).

Modelling choices, in correspondence with the source:

* Python values that can flow through this store are modelled by `PyVal`
  (JSON-representable values plus `None`).  Python floats are modelled as
  rationals: no arithmetic is ever performed on stored values, only
  `type(...)` inspection and (de)serialisation, so the payload only has to
  be carried around.  `json.dumps` followed by `json.loads` is the identity
  on this universe; a file therefore stores either a decodable value
  (`FileContent.good v`) or undecodable bytes (`FileContent.corrupt`).
* The filesystem state visible to the module is a `World`: whether the
  params directory exists, the association list of files in it (keyed by
  file name), whether the `.imported` sentinel dotfile exists, and the
  contents of the legacy `op_params.json` file.
* Python dicts are modelled as association lists with `lookupA` /
  `insertA` / `eraseA`, which preserve dict-update semantics (replace in
  place, append new keys at the end, unique keys when built from inserts).
* Exceptions are modelled with `Except PyErr`.  `_read_param` catches only
  `json.decoder.JSONDecodeError`; opening a missing file raises
  `FileNotFoundError`, which is modelled by `PyErr.fileNotFound`.
* `sec_since_boot()` is modelled by an explicit `now : Int` argument; the
  two calls inside one `get` (condition test and `last_read` update) are
  modelled as the same instant.
* `description` strings are display-only (used by the external opEdit
  tool, not by any logic in this file) and are not modelled.
-/

/-- The runtime type tags (`type(value)`) relevant to the store:
`NoneType, bool, int, float, str, list, dict`. -/
inductive PyType where
  | noneT
  | boolT
  | intT
  | floatT
  | strT
  | listT
  | dictT
deriving DecidableEq, Repr

/-- JSON-representable Python values (plus `None`), the universe of values
the store reads and writes. -/
inductive PyVal where
  | none
  | bool (b : Bool)
  | int (n : Int)
  | float (q : ℚ)
  | str (s : String)
  | list (xs : List PyVal)
  | dict (kv : List (String × PyVal))

/-- `type(value)` restricted to the modelled universe.  Note that in Python
`type(True) is bool`, not `int`: the tags are mutually exclusive. -/
def PyVal.typeOf : PyVal → PyType
  | .none => .noneT
  | .bool _ => .boolT
  | .int _ => .intT
  | .float _ => .floatT
  | .str _ => .strT
  | .list _ => .listT
  | .dict _ => .dictT

/-- `NUMBER = [float, int]` (src line 17). -/
def NUMBER : List PyType := [.floatT, .intT]

/-- `NONE_OR_NUMBER = [type(None), float, int]` (src line 18). -/
def NONE_OR_NUMBER : List PyType := [.noneT, .floatT, .intT]

/-- A `Param` object after `__init__` and `_create_attrs` have run
(src lines 26-52).  `allowed_types` is the list as it stands *after*
`_create_attrs` removed the `list` marker; `has_allowed_types` and
`is_list` were computed from the list as originally declared. -/
structure Param where
  default_value : PyVal
  allowed_types : List PyType
  static : Bool
  live : Bool
  hidden : Bool
  has_allowed_types : Bool
  is_list : Bool
  read_frequency : Option Nat
  last_read : Int

/-- `Param.__init__` composed with `_create_attrs` (src lines 27-52):
`has_allowed_types` is `len(allowed_types) > 0` on the declared list,
`is_list` is `list in allowed_types`, `read_frequency` is
`None if static else (1 if live else 10)`, `last_read = -1`, and if
`is_list` the first occurrence of the `list` marker is removed from
`allowed_types` (Python `list.remove`).  The `assert` on the default value
holds for every registry entry below (see `fork_params_defaults_valid`). -/
def mkParam (default : PyVal) (allowed : List PyType)
    (static live hidden : Bool) : Param :=
  let has_allowed_types := decide (0 < allowed.length)
  let is_list := decide (PyType.listT ∈ allowed)
  { default_value := default
    allowed_types := if is_list then allowed.erase .listT else allowed
    static := static
    live := live
    hidden := hidden
    has_allowed_types := has_allowed_types
    is_list := is_list
    read_frequency := if static then Option.none else some (if live then 1 else 10)
    last_read := -1 }

/-- `Param.is_valid` (src lines 38-41): always true when no allowed types
were declared, otherwise `type(value) in self.allowed_types` (on the list
as it stands after `_create_attrs`). -/
def Param.is_valid (p : Param) (value : PyVal) : Bool :=
  if !p.has_allowed_types then true
  else decide (value.typeOf ∈ p.allowed_types)

/-- Association-list lookup, modelling `d[k]` / `k in d` on a Python dict. -/
def lookupA {α : Type} : List (String × α) → String → Option α
  | [], _ => Option.none
  | (k, v) :: t, key => if k = key then some v else lookupA t key

/-- Association-list update, modelling `d[k] = v` on a Python dict:
replace in place if the key is present, append otherwise. -/
def insertA {α : Type} : List (String × α) → String → α → List (String × α)
  | [], key, value => [(key, value)]
  | (k, v) :: t, key, value =>
      if k = key then (k, value) :: t else (k, v) :: insertA t key value

/-- Association-list removal, modelling `del d[k]` / file deletion. -/
def eraseA {α : Type} : List (String × α) → String → List (String × α)
  | [], _ => []
  | (k, v) :: t, key => if k = key then t else (k, v) :: eraseA t key

/-- Contents of one file under `PARAMS_DIR`: either bytes that decode as
JSON to a value, or bytes on which `json.loads` raises. -/
inductive FileContent where
  | good (v : PyVal)
  | corrupt

/-- Contents of the legacy `op_params.json` file: a JSON object (a flat
key-to-value table) or undecodable bytes. -/
inductive LegacyFile where
  | table (kv : List (String × PyVal))
  | corrupt

/-- The filesystem state the module interacts with.  `files` are the
entries of `PARAMS_DIR` other than the `.imported` sentinel dotfile, which
is modelled by the `sentinel` flag; `legacy` is `OLD_PARAMS_FILE`
(`Option.none` = the file does not exist). -/
structure World where
  dirExists : Bool
  files : List (String × FileContent)
  sentinel : Bool
  legacy : Option LegacyFile

/-- The exceptions the module can raise. -/
inductive PyErr where
  | unknownParameter (method key : String)
  | invalidValueType
  | fileNotFound
  | keyError (key : String)
deriving DecidableEq, Repr

/-- `_read_param` (src lines 55-61): opens `PARAMS_DIR/key` and parses it
as JSON.  The `try` catches only `json.decoder.JSONDecodeError` and then
returns `(None, False)`; a missing file makes `open` raise
`FileNotFoundError`, which propagates. -/
def readParam (files : List (String × FileContent)) (key : String) :
    Except PyErr (PyVal × Bool) :=
  match lookupA files key with
  | Option.none => .error .fileNotFound
  | some .corrupt => .ok (PyVal.none, false)
  | some (.good v) => .ok (v, true)

/-- `_write_param` (src lines 64-67): atomically replace the file with the
JSON encoding of `value`.  `json.dumps` succeeds on every `PyVal` and the
atomic write either fully succeeds or leaves the old contents, so the
successful outcome is modelled. -/
def writeParam (files : List (String × FileContent)) (key : String)
    (value : PyVal) : List (String × FileContent) :=
  insertA files key (.good value)

/-- `_import_params` (src lines 70-79): if the legacy file exists and the
sentinel does not, parse the legacy file as a table, write every entry
through `_write_param`, then create the sentinel.  Any exception (in
particular a JSON decode failure) is swallowed by the bare `except`,
leaving the world as it was — so the sentinel is only created on success. -/
def importParams (w : World) : World :=
  if w.legacy.isSome && !w.sentinel then
    match w.legacy with
    | some (.table kv) =>
        { w with
          files := kv.foldl (fun fs p => writeParam fs p.1 p.2) w.files
          sentinel := true }
    | _ => w
  else w

/-- `key.startswith(".")` on a file name: true iff the first character is
a dot (dotfiles such as the `.imported` sentinel are skipped by the load
loop). -/
def startsWithDot (s : String) : Bool :=
  match s.data with
  | [] => false
  | c :: _ => c = '.'

/-- One iteration of the load loop in `_load_params` (src lines 183-190):
skip dotfiles and unregistered keys; on a decodable file cache its value;
on a decode failure cache the default and rewrite the file with it.
The loop iterates over the directory listing taken once; a rewrite only
touches the key currently being visited, so reading each listed file at
visit time is equivalent to reading the pre-loop contents. -/
def loadStep (fp : List (String × Param))
    (acc : List (String × PyVal) × List (String × FileContent))
    (e : String × FileContent) :
    List (String × PyVal) × List (String × FileContent) :=
  if startsWithDot e.1 then acc
  else
    match lookupA fp e.1 with
    | Option.none => acc
    | some p =>
        match e.2 with
        | .good v => (insertA acc.1 e.1 v, acc.2)
        | .corrupt =>
            (insertA acc.1 e.1 p.default_value,
             writeParam acc.2 e.1 p.default_value)

/-- `opParams._load_params` (src lines 176-191): create the directory when
absent (running the legacy importer only in that case, and only when
`can_import`), then build a fresh params dict from the files currently in
the directory. -/
def loadParams (fp : List (String × Param)) (w : World) (can_import : Bool) :
    List (String × PyVal) × World :=
  let w1 :=
    if !w.dirExists then
      let w2 := { w with dirExists := true }
      if can_import then importParams w2 else w2
    else w
  let r := w1.files.foldl (loadStep fp) ([], w1.files)
  (r.1, { w1 with files := r.2 })

/-- One iteration of `_add_default_params` (src lines 202-210): a missing
key gets its default cached and persisted; a cached value that fails
`is_valid` is replaced by the default in cache and on disk. -/
def addDefaultStep
    (acc : List (String × PyVal) × List (String × FileContent))
    (kp : String × Param) :
    List (String × PyVal) × List (String × FileContent) :=
  match lookupA acc.1 kp.1 with
  | Option.none =>
      (insertA acc.1 kp.1 kp.2.default_value,
       writeParam acc.2 kp.1 kp.2.default_value)
  | some v =>
      if !kp.2.is_valid v then
        (insertA acc.1 kp.1 kp.2.default_value,
         writeParam acc.2 kp.1 kp.2.default_value)
      else acc

/-- One iteration of `_delete_and_reset` (src lines 212-219), over the
snapshot `list(self.params)` of cached keys: a key listed in `_to_delete`
is removed from the cache and its file deleted with `os.remove`; a key
listed in `_to_reset` that is still registered is set back to its default
in cache and on disk.  (On the delete branch the key entered the cache via
the load pass or the default pass, so its file exists and `os.remove`
succeeds.) -/
def deleteResetStep (fp : List (String × Param))
    (to_delete to_reset : List String)
    (acc : List (String × PyVal) × List (String × FileContent))
    (k : String) :
    List (String × PyVal) × List (String × FileContent) :=
  if k ∈ to_delete then (eraseA acc.1 k, eraseA acc.2 k)
  else if k ∈ to_reset then
    match lookupA fp k with
    | some p => (insertA acc.1 k p.default_value, writeParam acc.2 k p.default_value)
    | Option.none => acc
  else acc

/-- The fixed registry `self.fork_params` (src lines 100-134) together with
the two entries `_run_init` always adds (src lines 142-143), in dict
insertion order. -/
def forkParamsInit : List (String × Param) :=
  [("global_df_mod", mkParam (.float 1.0) NUMBER false true false),
   ("min_TR", mkParam (.float 0.9) NUMBER false true false),
   ("alca_no_nudge_speed", mkParam (.float 90.0) NUMBER false false false),
   ("steer_ratio", mkParam .none NONE_OR_NUMBER false true false),
   ("upload_onroad", mkParam (.bool true) [.boolT] true false false),
   ("update_behavior", mkParam (.str "alert") [.strT] true false false),
   ("dynamic_gas", mkParam (.bool false) [.boolT] false false false),
   ("hide_auto_df_alerts", mkParam (.bool false) [.boolT] false false false),
   ("df_button_alerts", mkParam (.str "audible") [.strT] false false false),
   ("disable_charging", mkParam (.int 30) NUMBER true false false),
   ("hide_model_long", mkParam (.bool false) [.boolT] true false false),
   ("use_steering_model", mkParam (.bool false) [.boolT] true false false),
   ("rav4TSS2_use_indi", mkParam (.bool false) [.boolT] true false false),
   ("standstill_hack", mkParam (.bool false) [.boolT] true false false),
   ("toyota_distance_btn", mkParam (.bool false) [.boolT] true false false),
   ("dynamic_follow", mkParam (.str "stock") [.strT] true false true),
   ("lane_speed_alerts", mkParam (.str "silent") [.strT] true false true),
   ("username", mkParam .none [.noneT, .strT, .boolT] false false false),
   ("op_edit_live_mode", mkParam (.bool false) [.boolT] false false true)]

/-- `self._to_delete` (src line 136). -/
def toDelete : List String :=
  ["use_lqr", "disengage_on_gas", "corollaTSS2_use_indi", "prius_use_pid"]

/-- `self._to_reset` (src line 137). -/
def toReset : List String := []

/-- The mutable state of an `opParams` instance: the registry (whose
`Param` objects carry the mutable `last_read`) and the value cache
`self.params`. -/
structure opParams where
  fork_params : List (String × Param)
  params : List (String × PyVal)

/-- `opParams.__init__` / `_run_init` (src lines 83-147): build the
registry, load params (importing legacy values if the directory had to be
created), fill in defaults, then run the delete/reset pass. -/
def opParams.new (w : World) : opParams × World :=
  let fp := forkParamsInit
  let lr := loadParams fp w true
  let ad := fp.foldl addDefaultStep (lr.1, lr.2.files)
  let snapshot := ad.1.map Prod.fst
  let dr := snapshot.foldl (deleteResetStep fp toDelete toReset) ad
  ({ fork_params := fp, params := dr.1 }, { lr.2 with files := dr.2 })

/-- The tail of `opParams.get` (src lines 164-167): look the key up in
`self.params` (a missing key raises `KeyError`), return the cached value if
it passes `is_valid`, otherwise warn and return the default. -/
def opParams.getReturn (st : opParams) (w : World) (key : String) (p : Param) :
    Except PyErr (PyVal × opParams × World) :=
  match lookupA st.params key with
  | Option.none => .error (.keyError key)
  | some value =>
      if p.is_valid value then .ok (value, st, w)
      else .ok (p.default_value, st, w)

/-- The refresh condition of `opParams.get` (src line 156):
`(not param_info.static and sec_since_boot() - last_read >= rate) or
force_update`, where `rate = param_info.read_frequency`.  When the
parameter is static, `rate` is `None`, but the Python `and`
short-circuits before comparing against it, which the `getD 0`
placeholder mirrors: it is only reached when the parameter is not static
and `read_frequency` is then always `some`. -/
def refreshDue (p : Param) (now : Int) (force_update : Bool) : Bool :=
  (!p.static && decide (now - p.last_read ≥ ((p.read_frequency.getD 0 : Nat) : Int)))
    || force_update

/-- `opParams.get` with a string key (src lines 149-167); the `key=None`
form dispatches to `_get_all_params` and is modelled by
`opParams.getNone` below.  `now` is the value of `sec_since_boot()`. -/
def opParams.get (st : opParams) (w : World) (now : Int) (key : String)
    (force_update : Bool) : Except PyErr (PyVal × opParams × World) :=
  match lookupA st.fork_params key with
  | Option.none => .error (.unknownParameter "get" key)
  | some param_info =>
    if refreshDue param_info now force_update then
      match readParam w.files key with
      | .error e => .error e
      | .ok rs =>
        let fp1 := insertA st.fork_params key { param_info with last_read := now }
        if rs.2 then
          opParams.getReturn
            { st with fork_params := fp1, params := insertA st.params key rs.1 }
            w key param_info
        else
          opParams.getReturn
            { st with fork_params := fp1,
                      params := insertA st.params key param_info.default_value }
            { w with files := writeParam w.files key param_info.default_value }
            key param_info
    else
      opParams.getReturn st w key param_info

/-- The dict comprehension on src line 196:
`{k: self.params[k] for k, p in self.fork_params.items() if k in self.params and not p.hidden}`. -/
def allParamsView (fp : List (String × Param)) (params : List (String × PyVal)) :
    List (String × PyVal) :=
  fp.filterMap (fun kp =>
    match lookupA params kp.1 with
    | some v => if kp.2.hidden then Option.none else some (kp.1, v)
    | Option.none => Option.none)

/-- `_get_all_params` (src lines 193-196): optionally reload the cache
from disk (no legacy import), then return the non-hidden registered keys
that are present in the cache, in registry order. -/
def opParams.getAllParams (st : opParams) (w : World) (to_update : Bool) :
    List (String × PyVal) × opParams × World :=
  let r := if to_update then loadParams st.fork_params w false else (st.params, w)
  (allParamsView st.fork_params r.1, { st with params := r.1 }, r.2)

/-- `opParams.get` with `key=None` (src lines 150-151): returns the dict of
all visible params, forwarding `force_update` as `to_update`. -/
def opParams.getNone (st : opParams) (w : World) (force_update : Bool) :
    List (String × PyVal) × opParams × World :=
  opParams.getAllParams st w force_update

/-- `opParams.put` (src lines 169-174): unknown keys and values failing
`is_valid` raise before anything is mutated; otherwise the cache is updated
and the value written through to disk. -/
def opParams.put (st : opParams) (w : World) (key : String) (value : PyVal) :
    Except PyErr (opParams × World) :=
  match lookupA st.fork_params key with
  | Option.none => .error (.unknownParameter "put" key)
  | some p =>
    if !p.is_valid value then .error .invalidValueType
    else
      .ok ({ st with params := insertA st.params key value },
           { w with files := writeParam w.files key value })

/-! ### Helper lemmas about the association-list operations -/

theorem lookupA_insertA_self {α : Type} (l : List (String × α)) (k : String) (v : α) :
    lookupA (insertA l k v) k = some v := by
  induction l with
  | nil => simp [insertA, lookupA]
  | cons e t ih =>
    by_cases h : e.1 = k
    · simp [insertA, lookupA, h]
    · simp [insertA, lookupA, h, ih]

theorem lookupA_insertA_ne {α : Type} (l : List (String × α)) (k k' : String) (v : α)
    (h : k' ≠ k) : lookupA (insertA l k v) k' = lookupA l k' := by
  induction l with
  | nil =>
    simp only [insertA, lookupA]
    rw [if_neg (fun hh => h hh.symm)]
  | cons e t ih =>
    by_cases he : e.1 = k
    · simp only [insertA, if_pos he, lookupA]
      rw [if_neg (he ▸ fun hh => h hh.symm), if_neg (fun hh => h (he ▸ hh.symm))]
    · simp only [insertA, if_neg he, lookupA]
      by_cases he' : e.1 = k'
      · simp [he']
      · simp [he', ih]

theorem lookupA_none_forall {α : Type} (l : List (String × α)) (k : String)
    (h : lookupA l k = Option.none) : ∀ e ∈ l, e.1 ≠ k := by
  induction l with
  | nil => intro e he; cases he
  | cons e t ih =>
    intro e' he'
    by_cases hek : e.1 = k
    · rw [lookupA, if_pos hek] at h; cases h
    · rw [lookupA, if_neg hek] at h
      cases he' with
      | head => exact hek
      | tail _ hm => exact ih h e' hm

/-- `force_update=True` always makes the refresh condition of `get` hold:
the disjunction on src line 156 ends in `or force_update`. -/
theorem refreshDue_force (p : Param) (now : Int) : refreshDue p now true = true := by
  simp [refreshDue]

/-- Behaviour of the validity-check tail of `get` (src lines 164-167) on the
success path: the state is returned untouched, and the returned value is
either the cached value (which then passed `is_valid`) or the default. -/
theorem getReturn_ok (st : opParams) (w : World) (key : String) (p : Param)
    (r : PyVal) (st' : opParams) (w' : World)
    (h : opParams.getReturn st w key p = .ok (r, st', w')) :
    st' = st ∧ w' = w ∧
      ((lookupA st.params key = some r ∧ p.is_valid r = true) ∨ r = p.default_value) := by
  unfold opParams.getReturn at h
  split at h
  · cases h
  · rename_i v hc
    split at h
    · rename_i hv
      injection h with h1
      injection h1 with hr h2
      injection h2 with hst hw
      exact ⟨hst.symm, hw.symm, Or.inl ⟨hr ▸ hc, hr ▸ hv⟩⟩
    · rename_i hv
      injection h with h1
      injection h1 with hr h2
      injection h2 with hst hw
      exact ⟨hst.symm, hw.symm, Or.inr hr.symm⟩

/-- C1: for a registered key `k` and a value `v` passing that parameter's
`is_valid`, `put(k, v)` succeeds, writes the JSON encoding of `v` to the
per-key file, and an immediately following `get(k, force_update=True)`
re-reads that file and returns `v`. -/
theorem C1_put_then_forced_get (st : opParams) (w : World) (now : Int)
    (key : String) (v : PyVal) (p : Param)
    (hk : lookupA st.fork_params key = some p) (hv : p.is_valid v = true) :
    ∃ st1 w1 st2 w2,
      opParams.put st w key v = .ok (st1, w1)
      ∧ lookupA w1.files key = some (.good v)
      ∧ opParams.get st1 w1 now key true = .ok (v, st2, w2) := by
  refine ⟨{ st with params := insertA st.params key v },
          { w with files := writeParam w.files key v },
          { st with fork_params := insertA st.fork_params key { p with last_read := now },
                    params := insertA (insertA st.params key v) key v },
          { w with files := writeParam w.files key v }, ?_, ?_, ?_⟩
  · simp [opParams.put, hk, hv]
  · exact lookupA_insertA_self w.files key (.good v)
  · simp [opParams.get, hk, refreshDue_force, readParam, writeParam,
          lookupA_insertA_self, opParams.getReturn, hv]

/-- C1 witness: a concrete run of `put` followed by a forced `get` on the
registered key `min_TR` with the valid value `1.2`. -/
theorem C1_witness :
    ∃ st1 w1 st2 w2,
      opParams.put ⟨forkParamsInit, [("min_TR", PyVal.float 0.9)]⟩
          ⟨true, [("min_TR", FileContent.good (PyVal.float 0.9))], true, Option.none⟩
          "min_TR" (PyVal.float 1.2) = .ok (st1, w1)
      ∧ lookupA w1.files "min_TR" = some (.good (PyVal.float 1.2))
      ∧ opParams.get st1 w1 50 "min_TR" true = .ok (PyVal.float 1.2, st2, w2) :=
  C1_put_then_forced_get ⟨forkParamsInit, [("min_TR", PyVal.float 0.9)]⟩
    ⟨true, [("min_TR", FileContent.good (PyVal.float 0.9))], true, Option.none⟩
    50 "min_TR" (PyVal.float 1.2) (mkParam (PyVal.float 0.9) NUMBER false true false)
    rfl rfl

/-- C3: `put` on a registered key with a value failing `is_valid` raises
`InvalidValueType` (src line 172) before the cache update and disk write on
lines 173-174; since the function exits by the raise, cache and disk are
left exactly as they were. -/
theorem C3_invalid_put_raises (st : opParams) (w : World) (key : String)
    (value : PyVal) (p : Param)
    (hk : lookupA st.fork_params key = some p)
    (hv : p.is_valid value = false) :
    opParams.put st w key value = .error .invalidValueType := by
  simp [opParams.put, hk, hv]

/-- C3 witness: putting the string value `"x"` into the numeric parameter
`min_TR` raises `InvalidValueType`. -/
theorem C3_witness :
    opParams.put ⟨forkParamsInit, [("min_TR", PyVal.float 0.9)]⟩
        ⟨true, [("min_TR", FileContent.good (PyVal.float 0.9))], true, Option.none⟩
        "min_TR" (PyVal.str "x") = .error .invalidValueType :=
  C3_invalid_put_raises _ _ "min_TR" (PyVal.str "x")
    (mkParam (PyVal.float 0.9) NUMBER false true false) rfl rfl

/-- C2: when `get` finds the (post-refresh) cached value invalid under
`is_valid`, it warns and returns the default without touching anything
(src lines 164-167): in particular, when no refresh is due the whole call
leaves cache and disk exactly as they were and returns the default.
Consequently, given that the parameter's declared default passes its own
`is_valid` — which the third conjunct checks for every entry of the actual
registry — every value a successful `get(key)` returns passes `is_valid`. -/
theorem C2_invalid_cache_returns_default (st : opParams) (w : World) (now : Int)
    (key : String) (fu : Bool) (p : Param)
    (hk : lookupA st.fork_params key = some p)
    (hd : p.is_valid p.default_value = true) :
    (∀ r st' w', opParams.get st w now key fu = .ok (r, st', w') →
        p.is_valid r = true)
    ∧ (refreshDue p now fu = false →
        ∀ cv, lookupA st.params key = some cv → p.is_valid cv = false →
          opParams.get st w now key fu = .ok (p.default_value, st, w))
    ∧ forkParamsInit.all (fun kp => kp.2.is_valid kp.2.default_value) = true := by
  refine ⟨?_, ?_, rfl⟩
  · intro r st' w' h
    simp only [opParams.get, hk] at h
    split at h
    · split at h
      · cases h
      · rename_i rs hrs
        split at h
        · rcases getReturn_ok _ _ _ _ _ _ _ h with ⟨_, _, hval⟩
          rcases hval with ⟨_, hval⟩ | hval
          · exact hval
          · exact hval ▸ hd
        · rcases getReturn_ok _ _ _ _ _ _ _ h with ⟨_, _, hval⟩
          rcases hval with ⟨_, hval⟩ | hval
          · exact hval
          · exact hval ▸ hd
    · rcases getReturn_ok _ _ _ _ _ _ _ h with ⟨_, _, hval⟩
      rcases hval with ⟨_, hval⟩ | hval
      · exact hval
      · exact hval ▸ hd
  · intro hcond cv hcv hinv
    simp [opParams.get, hk, hcond, opParams.getReturn, hcv, hinv]

/-- C2 witness: `upload_onroad` is static (no refresh due), its cached
value is the invalid string `"x"`, and `get` returns the declared default
`True` leaving the state untouched. -/
theorem C2_witness :
    opParams.get ⟨forkParamsInit, [("upload_onroad", PyVal.str "x")]⟩
        ⟨true, [("upload_onroad", FileContent.good (PyVal.bool true))], true, Option.none⟩
        50 "upload_onroad" false
      = .ok (PyVal.bool true,
             ⟨forkParamsInit, [("upload_onroad", PyVal.str "x")]⟩,
             ⟨true, [("upload_onroad", FileContent.good (PyVal.bool true))], true, Option.none⟩) :=
  (C2_invalid_cache_returns_default
      ⟨forkParamsInit, [("upload_onroad", PyVal.str "x")]⟩
      ⟨true, [("upload_onroad", FileContent.good (PyVal.bool true))], true, Option.none⟩
      50 "upload_onroad" false (mkParam (PyVal.bool true) [.boolT] true false false)
      rfl rfl).2.1 rfl (PyVal.str "x") rfl rfl

/-- C4: for a registered non-static key whose file holds malformed JSON, a
`get` whose refresh fires (interval elapsed or `force_update`) returns the
declared default, writes the default back to the file as valid JSON, and
caches it (src lines 156-162). -/
theorem C4_corrupt_file_self_heals (st : opParams) (w : World) (now : Int)
    (key : String) (fu : Bool) (p : Param)
    (hk : lookupA st.fork_params key = some p)
    (hstatic : p.static = false)
    (hfile : lookupA w.files key = some .corrupt)
    (helapsed : now - p.last_read ≥ ((p.read_frequency.getD 0 : Nat) : Int) ∨ fu = true) :
    ∃ st' w', opParams.get st w now key fu = .ok (p.default_value, st', w')
      ∧ lookupA w'.files key = some (.good p.default_value)
      ∧ lookupA st'.params key = some p.default_value := by
  have hcond : refreshDue p now fu = true := by
    rcases helapsed with h | h
    · simp [refreshDue, hstatic, h]
    · simp [refreshDue, h]
  refine ⟨{ st with fork_params := insertA st.fork_params key { p with last_read := now },
                    params := insertA st.params key p.default_value },
          { w with files := writeParam w.files key p.default_value }, ?_, ?_, ?_⟩
  · simp [opParams.get, hk, hcond, readParam, hfile, opParams.getReturn,
          lookupA_insertA_self]
  · exact lookupA_insertA_self _ _ _
  · exact lookupA_insertA_self _ _ _

/-- C4 witness: `min_TR` (live, rate 1s, never read) with a corrupt file:
a plain `get` at `now = 50` returns the default `0.9` and repairs the file. -/
theorem C4_witness :
    ∃ st' w', opParams.get ⟨forkParamsInit, [("min_TR", PyVal.float 1.5)]⟩
        ⟨true, [("min_TR", FileContent.corrupt)], true, Option.none⟩
        50 "min_TR" false = .ok (PyVal.float 0.9, st', w')
      ∧ lookupA w'.files "min_TR" = some (.good (PyVal.float 0.9))
      ∧ lookupA st'.params "min_TR" = some (PyVal.float 0.9) :=
  C4_corrupt_file_self_heals ⟨forkParamsInit, [("min_TR", PyVal.float 1.5)]⟩
    ⟨true, [("min_TR", FileContent.corrupt)], true, Option.none⟩
    50 "min_TR" false (mkParam (PyVal.float 0.9) NUMBER false true false)
    rfl rfl rfl (Or.inl (by decide))

/-- C5 counterexample: the claim says the per-key read returns
`(None, ok=False)` also when the file is missing.  In the source the
`try` in `_read_param` (src lines 56-61) catches only
`json.decoder.JSONDecodeError`; on a missing file `open` raises
`FileNotFoundError`, so `_read_param` on an empty directory raises instead
of returning `(None, False)`. -/
theorem C5_counterexample :
    readParam [] "min_TR" = .error .fileNotFound
    ∧ readParam [] "min_TR" ≠ .ok (PyVal.none, false) := by
  refine ⟨rfl, ?_⟩
  intro h
  rw [readParam] at h
  cases h

/-- C5 amended: `_read_param` returns `(None, ok=False)` only on a JSON
decode failure; a missing file raises `FileNotFoundError`, which `get`
does not catch, so when a refresh fires for a key whose file is absent the
exception surfaces out of `get` — while a decode failure never surfaces:
`get` then self-heals and returns the default. -/
theorem C5_amended_missing_file_raises (st : opParams) (w : World) (now : Int)
    (key : String) (fu : Bool) (p : Param)
    (hk : lookupA st.fork_params key = some p)
    (hcond : refreshDue p now fu = true) :
    (lookupA w.files key = Option.none →
        opParams.get st w now key fu = .error .fileNotFound)
    ∧ (lookupA w.files key = some .corrupt →
        ∃ st' w', opParams.get st w now key fu = .ok (p.default_value, st', w')) := by
  constructor
  · intro hfile
    simp [opParams.get, hk, hcond, readParam, hfile]
  · intro hfile
    refine ⟨{ st with fork_params := insertA st.fork_params key { p with last_read := now },
                      params := insertA st.params key p.default_value },
            { w with files := writeParam w.files key p.default_value }, ?_⟩
    simp [opParams.get, hk, hcond, readParam, hfile, opParams.getReturn,
          lookupA_insertA_self]

/-- C5 witness: a forced `get` of the registered key `min_TR` when its
file is absent raises `FileNotFoundError` instead of self-healing. -/
theorem C5_witness :
    opParams.get ⟨forkParamsInit, [("min_TR", PyVal.float 0.9)]⟩
        ⟨true, [], true, Option.none⟩ 50 "min_TR" true
      = .error .fileNotFound :=
  (C5_amended_missing_file_raises ⟨forkParamsInit, [("min_TR", PyVal.float 0.9)]⟩
      ⟨true, [], true, Option.none⟩ 50 "min_TR" true
      (mkParam (PyVal.float 0.9) NUMBER false true false) rfl rfl).1 rfl

/-- C6 counterexample: the claim says a static parameter is never re-read
from disk after the initial load, *including* `get(key, force_update=True)`.
In the source the refresh condition (src line 156) ends in
`or force_update`, so a forced `get` re-reads even a static parameter:
here `upload_onroad` is static, the cache holds `True`, the on-disk file
holds `False`, and the forced `get` returns the on-disk value `False` and
bumps `last_read` — a disk read took place. -/
theorem C6_counterexample :
    (lookupA forkParamsInit "upload_onroad").map Param.static = some true
    ∧ opParams.get ⟨forkParamsInit, [("upload_onroad", PyVal.bool true)]⟩
        ⟨true, [("upload_onroad", FileContent.good (PyVal.bool false))], false, Option.none⟩
        100 "upload_onroad" true
      = .ok (PyVal.bool false,
          ⟨insertA forkParamsInit "upload_onroad"
              { mkParam (PyVal.bool true) [.boolT] true false false with last_read := 100 },
           [("upload_onroad", PyVal.bool false)]⟩,
          ⟨true, [("upload_onroad", FileContent.good (PyVal.bool false))], false, Option.none⟩) :=
  ⟨rfl, rfl⟩

/-- C6 amended: a static parameter is never refreshed by a plain `get`
(`force_update` false): the call leaves the whole state — cache, registry
`last_read` timestamps, and disk — unchanged, and returns the cached value
(or the default if the cached value is invalid).  Only
`get(key, force_update=True)` and `get(None, force_update=True)` re-read a
static parameter's file. -/
theorem C6_amended_static_plain_get_no_read (st : opParams) (w : World) (now : Int)
    (key : String) (p : Param)
    (hk : lookupA st.fork_params key = some p)
    (hs : p.static = true) :
    ∀ r st' w', opParams.get st w now key false = .ok (r, st', w') →
      st' = st ∧ w' = w
      ∧ (lookupA st.params key = some r ∨ r = p.default_value) := by
  intro r st' w' h
  have hcond : refreshDue p now false = false := by simp [refreshDue, hs]
  simp only [opParams.get, hk, hcond, Bool.false_eq_true, if_false] at h
  rcases getReturn_ok _ _ _ _ _ _ _ h with ⟨hst, hw, hval⟩
  refine ⟨hst, hw, ?_⟩
  rcases hval with ⟨hl, _⟩ | hd
  · exact Or.inl hl
  · exact Or.inr hd

/-- C6 witness: a plain `get` of the static key `upload_onroad` with a
valid cached value returns it and changes nothing. -/
theorem C6_witness :
    (⟨forkParamsInit, [("upload_onroad", PyVal.bool true)]⟩ : opParams)
        = ⟨forkParamsInit, [("upload_onroad", PyVal.bool true)]⟩
    ∧ (⟨true, [("upload_onroad", FileContent.good (PyVal.bool false))], false, Option.none⟩ : World)
        = ⟨true, [("upload_onroad", FileContent.good (PyVal.bool false))], false, Option.none⟩
    ∧ (lookupA [("upload_onroad", PyVal.bool true)] "upload_onroad" = some (PyVal.bool true)
        ∨ PyVal.bool true = (mkParam (PyVal.bool true) [.boolT] true false false).default_value) :=
  C6_amended_static_plain_get_no_read
    ⟨forkParamsInit, [("upload_onroad", PyVal.bool true)]⟩
    ⟨true, [("upload_onroad", FileContent.good (PyVal.bool false))], false, Option.none⟩
    100 "upload_onroad" (mkParam (PyVal.bool true) [.boolT] true false false)
    rfl rfl (PyVal.bool true) _ _ rfl

/-- The validity predicate that C9 describes, written from the spec text:
with the list marker among the declared allowed types, the value is
checked for being a list and, if non-empty, its elements are checked
against the remaining allowed types.  This is what the claim says
`is_valid` does; `C9_counterexample` shows the code disagrees. -/
def isValidClaimed (allowed : List PyType) (v : PyVal) : Bool :=
  if allowed.isEmpty then true
  else if PyType.listT ∈ allowed then
    match v with
    | .list xs => xs.all (fun x => decide (x.typeOf ∈ allowed.erase .listT))
    | _ => false
  else decide (v.typeOf ∈ allowed)

/-- C9 counterexample: for a `Param` declared with allowed types
`[list, int]`, the claim says `is_valid([1])` is true (it is a list and
its element is an `int`).  In the code, `_create_attrs` (src line 52)
removes the `list` marker, and `is_valid` (src line 41) then just checks
`type([1]) in [int]`, which is false — no list-ness or element checking
happens in `is_valid` at all. -/
theorem C9_counterexample :
    (mkParam (PyVal.list []) [PyType.listT, PyType.intT] false false false).is_valid
        (PyVal.list [PyVal.int 1]) = false
    ∧ isValidClaimed [PyType.listT, PyType.intT] (PyVal.list [PyVal.int 1]) = true :=
  ⟨rfl, rfl⟩

/-- C9 amended: `is_valid` is true unconditionally when no allowed types
were declared; otherwise it is true iff the value's runtime type exactly
matches one of the declared allowed types *with the list marker removed at
registration time* — `is_valid` itself performs no list-ness or
element-type checking. -/
theorem C9_amended_is_valid_iff (d : PyVal) (allowed : List PyType)
    (s l h : Bool) (v : PyVal) :
    (mkParam d allowed s l h).is_valid v = true ↔
      (allowed = [] ∨ v.typeOf ∈ allowed.erase PyType.listT) := by
  unfold mkParam Param.is_valid
  cases allowed with
  | nil => simp
  | cons a t =>
    by_cases hm : PyType.listT ∈ a :: t
    · simp [hm]
    · simp [hm, List.erase_of_not_mem hm]

/-- C7: evaluation of the code at the failing input.  The key `use_lqr` is
listed in `_to_delete` and its file exists before construction, yet after
initialization the file is still on disk (and there is no cache entry —
but only because `_load_params` (src line 184) skips unregistered keys, so
the delete pass over `self.params` (src lines 212-216) never sees the key
and never calls `os.remove`). -/
theorem C7_to_delete_file_survives_init :
    "use_lqr" ∈ toDelete
    ∧ lookupA (opParams.new
        ⟨true, [("use_lqr", FileContent.good (PyVal.int 1))], false, Option.none⟩).2.files
        "use_lqr" = some (FileContent.good (PyVal.int 1))
    ∧ lookupA (opParams.new
        ⟨true, [("use_lqr", FileContent.good (PyVal.int 1))], false, Option.none⟩).1.params
        "use_lqr" = Option.none := by
  refine ⟨?_, rfl, rfl⟩
  simp [toDelete]

/-- C8 counterexample: start with no params directory, no sentinel, and a
*corrupt* legacy file.  Construction succeeds with the sentinel left
uncreated (first conjunct) — but the import is *not* attempted again on the
next construction: even after the legacy file becomes readable (now a
table holding key `zz`), a second construction neither writes `zz` nor
creates the sentinel (second and third conjuncts), because
`_load_params` (src lines 177-180) only runs `_import_params` when the
params directory has to be created, and the first construction created it.
The fourth conjunct shows the same readable legacy file *is* imported when
the directory is absent, isolating the directory check as the cause. -/
theorem C8_counterexample :
    (opParams.new ⟨false, [], false, some LegacyFile.corrupt⟩).2.sentinel = false
    ∧ lookupA (opParams.new
        { (opParams.new ⟨false, [], false, some LegacyFile.corrupt⟩).2 with
            legacy := some (LegacyFile.table [("zz", PyVal.int 5)]) }).2.files "zz"
      = Option.none
    ∧ (opParams.new
        { (opParams.new ⟨false, [], false, some LegacyFile.corrupt⟩).2 with
            legacy := some (LegacyFile.table [("zz", PyVal.int 5)]) }).2.sentinel = false
    ∧ lookupA (opParams.new
        ⟨false, [], false, some (LegacyFile.table [("zz", PyVal.int 5)])⟩).2.files "zz"
      = some (FileContent.good (PyVal.int 5)) :=
  ⟨rfl, rfl, rfl, rfl⟩

/-- C8 amended: when the one-time migration fails (corrupt legacy JSON),
the failure is swallowed: construction completes with the same cache and
files as if no legacy data existed, and the sentinel is not created.  But
the import is reattempted on a later construction only if the params
directory is then absent again: the first construction leaves the
directory in place, and any construction that finds the directory present
skips the importer entirely — whatever the legacy file now holds, the
sentinel stays uncreated and nothing is imported. -/
theorem C8_amended_failure_swallowed_no_retry (w : World)
    (h1 : w.dirExists = false) (h2 : w.sentinel = false)
    (h3 : w.legacy = some LegacyFile.corrupt) :
    (opParams.new w).2.sentinel = false
    ∧ (opParams.new w).1.params
        = (opParams.new { w with legacy := Option.none }).1.params
    ∧ (opParams.new w).2.files
        = (opParams.new { w with legacy := Option.none }).2.files
    ∧ (opParams.new w).2.dirExists = true
    ∧ ∀ l, (opParams.new { (opParams.new w).2 with legacy := l }).2.sentinel
        = false := by
  obtain ⟨d, files, s, lg⟩ := w
  cases h1
  cases h2
  cases h3
  exact ⟨rfl, rfl, rfl, rfl, fun l => rfl⟩

/-- C8 witness: the amended theorem applied to the concrete world with a
corrupt legacy file, an absent directory, and no sentinel. -/
theorem C8_witness :
    (opParams.new ⟨false, [("junk", FileContent.corrupt)], false,
        some LegacyFile.corrupt⟩).2.sentinel = false :=
  (C8_amended_failure_swallowed_no_retry
    ⟨false, [("junk", FileContent.corrupt)], false, some LegacyFile.corrupt⟩
    rfl rfl rfl).1

/-- The load loop of `_load_params` neither caches nor writes any key that
is absent from the directory listing it iterates over: each iteration only
touches the cache and the file of the key it is visiting. -/
theorem load_foldl_absent (fp : List (String × Param)) (key : String) :
    ∀ (entries : List (String × FileContent))
      (acc : List (String × PyVal) × List (String × FileContent)),
      (∀ e ∈ entries, e.1 ≠ key) →
      lookupA (entries.foldl (loadStep fp) acc).1 key = lookupA acc.1 key
      ∧ lookupA (entries.foldl (loadStep fp) acc).2 key = lookupA acc.2 key := by
  intro entries
  induction entries with
  | nil => intro acc hcl; exact ⟨rfl, rfl⟩
  | cons e t ih =>
    intro acc hcl
    have he : key ≠ e.1 := Ne.symm (hcl e (List.mem_cons_self e t))
    have ht : ∀ x ∈ t, x.1 ≠ key := fun x hx => hcl x (List.mem_cons_of_mem _ hx)
    have step :
        lookupA (loadStep fp acc e).1 key = lookupA acc.1 key
        ∧ lookupA (loadStep fp acc e).2 key = lookupA acc.2 key := by
      unfold loadStep
      split
      · exact ⟨rfl, rfl⟩
      · split
        · exact ⟨rfl, rfl⟩
        · split
          · exact ⟨lookupA_insertA_ne _ _ _ _ he, rfl⟩
          · exact ⟨lookupA_insertA_ne _ _ _ _ he,
                   lookupA_insertA_ne _ _ _ _ he⟩
    rw [List.foldl_cons]
    rcases ih (loadStep fp acc e) ht with ⟨i1, i2⟩
    exact ⟨i1.trans step.1, i2.trans step.2⟩

/-- `_load_params` without legacy import (`can_import=False`, the
`_get_all_params` path): a key with no file in the directory ends up
neither in the rebuilt cache nor written to disk. -/
theorem loadParams_no_import_absent (fp : List (String × Param)) (w : World)
    (key : String) (hfile : lookupA w.files key = Option.none) :
    lookupA (loadParams fp w false).1 key = Option.none
    ∧ lookupA (loadParams fp w false).2.files key = Option.none := by
  unfold loadParams
  cases hd : w.dirExists
  · simp only [hd, Bool.not_false, if_true, Bool.false_eq_true, if_false]
    rcases load_foldl_absent fp key w.files ([], w.files)
        (lookupA_none_forall _ _ hfile) with ⟨i1, i2⟩
    exact ⟨i1, i2.trans hfile⟩
  · simp only [hd, Bool.not_true, Bool.false_eq_true, if_false]
    rcases load_foldl_absent fp key w.files ([], w.files)
        (lookupA_none_forall _ _ hfile) with ⟨i1, i2⟩
    exact ⟨i1, i2.trans hfile⟩

/-- A key absent from the cache is absent from the dict returned by
`_get_all_params` (the comprehension requires `k in self.params`). -/
theorem allParamsView_absent (fp : List (String × Param))
    (params : List (String × PyVal)) (key : String)
    (h : lookupA params key = Option.none) :
    lookupA (allParamsView fp params) key = Option.none := by
  induction fp with
  | nil => rfl
  | cons kp t ih =>
    unfold allParamsView at ih ⊢
    rw [List.filterMap_cons]
    cases hl : lookupA params kp.1 with
    | none => simpa using ih
    | some v =>
      have hne : kp.1 ≠ key := by
        intro he
        rw [he, h] at hl
        cases hl
      by_cases hh : kp.2.hidden = true
      · simpa [hl, hh] using ih
      · simpa [hl, hh, lookupA, hne] using ih

/-- C10: `get(key=None, force_update=True)` rebuilds the cache solely from
the files currently in the params directory: a registered key whose file
is absent is dropped from the cache, is missing from the returned mapping,
and its default is not restored or persisted (no write occurs for it). -/
theorem C10_forced_get_all_drops_fileless_keys (st : opParams) (w : World)
    (key : String) (p : Param)
    (_hk : lookupA st.fork_params key = some p)
    (hfile : lookupA w.files key = Option.none) :
    lookupA (opParams.getNone st w true).1 key = Option.none
    ∧ lookupA (opParams.getNone st w true).2.1.params key = Option.none
    ∧ lookupA (opParams.getNone st w true).2.2.files key = Option.none := by
  rcases loadParams_no_import_absent st.fork_params w key hfile with ⟨h1, h2⟩
  unfold opParams.getNone opParams.getAllParams
  simp only [if_true]
  exact ⟨allParamsView_absent _ _ _ h1, h1, h2⟩

/-- C10 witness: `dynamic_gas` is registered and cached but its file was
removed from disk; after `get(None, force_update=True)` it is gone from
the returned mapping and the cache, and no file was created for it. -/
theorem C10_witness :
    lookupA (opParams.getNone ⟨forkParamsInit,
        [("dynamic_gas", PyVal.bool true), ("min_TR", PyVal.float 1.5)]⟩
        ⟨true, [("min_TR", FileContent.good (PyVal.float 1.5))], true, Option.none⟩
        true).1 "dynamic_gas" = Option.none
    ∧ lookupA (opParams.getNone ⟨forkParamsInit,
        [("dynamic_gas", PyVal.bool true), ("min_TR", PyVal.float 1.5)]⟩
        ⟨true, [("min_TR", FileContent.good (PyVal.float 1.5))], true, Option.none⟩
        true).2.1.params "dynamic_gas" = Option.none
    ∧ lookupA (opParams.getNone ⟨forkParamsInit,
        [("dynamic_gas", PyVal.bool true), ("min_TR", PyVal.float 1.5)]⟩
        ⟨true, [("min_TR", FileContent.good (PyVal.float 1.5))], true, Option.none⟩
        true).2.2.files "dynamic_gas" = Option.none :=
  C10_forced_get_all_drops_fileless_keys
    ⟨forkParamsInit, [("dynamic_gas", PyVal.bool true), ("min_TR", PyVal.float 1.5)]⟩
    ⟨true, [("min_TR", FileContent.good (PyVal.float 1.5))], true, Option.none⟩
    "dynamic_gas" (mkParam (PyVal.bool false) [.boolT] false false false)
    rfl rfl
